import Mathlib

/-
Shallow embedding of the Distributed AI Deception System honeypot core
(src/src/honeypot.py and src/src/deception.py) and proofs of the spec
claims about it.  Python dicts holding filesystem nodes and block entries
are modelled as functions into Option; Python floats for time are
modelled as Nat instants; the decision-oracle network round trip is
modelled as an explicit outcome parameter fed to the command step.
-/

set_option maxRecDepth 4096

/-- A node of the fake filesystem: deception.py stores dicts of the shape
\x7b'type': 'dir', 'contents': [...]\x7d. -/
structure FsNode where
  type : String
  contents : List String
deriving DecidableEq, Repr

/-- The self.fs dict of FakeFilesystem: absolute path to node. -/
def FsMap : Type := String → Option FsNode

/-- Python dict assignment fs[k] = v. -/
def fsInsert (fs : FsMap) (k : String) (v : FsNode) : FsMap :=
  fun p => if p = k then some v else fs p

/-- The self.file_contents dict of FakeFilesystem. -/
def FileMap : Type := String → Option String

/-- Python dict assignment file_contents[k] = v. -/
def fileInsert (fc : FileMap) (k : String) (v : String) : FileMap :=
  fun p => if p = k then some v else fc p

/-- FakeFilesystem state: the fs dict of directory nodes and the
file_contents dict. -/
structure FakeFilesystem where
  fs : FsMap
  file_contents : FileMap

/-- Split a character list at every character satisfying p, keeping
empty pieces, as Python str.split with an explicit separator does. -/
def splitCharsP (p : Char → Bool) : List Char → List (List Char)
  | [] => [[]]
  | c :: rest =>
    let r := splitCharsP p rest
    if p c then [] :: r
    else
      match r with
      | [] => [[c]]
      | h :: t => (c :: h) :: t

/-- Python str.split('/'): every slash separates, empty pieces kept. -/
def splitOnSlash (s : String) : List String :=
  (splitCharsP (fun c => c = '/') s.toList).map String.mk

/-- Python str.startswith with a single-character prefix. -/
def startsWithChar (c : Char) (s : String) : Bool :=
  match s.toList with
  | [] => false
  | c0 :: _ => c0 = c

/-- One step of the normalization loop in FakeFilesystem.resolve_path:
empty and "." segments are skipped, ".." pops the last collected segment
when one exists, anything else is appended. -/
def normStep (acc : List String) (part : String) : List String :=
  if part = "" ∨ part = "." then acc
  else if part = ".." then acc.dropLast
  else acc ++ [part]

/-- FakeFilesystem.resolve_path (deception.py lines 103-127): join the
input onto current_path unless absolute, then normalize segment by
segment. -/
def resolve_path (current_path new_path : String) : String :=
  let target :=
    if startsWithChar '/' new_path then new_path
    else if current_path = "/" then current_path ++ new_path
    else current_path ++ "/" ++ new_path
  let parts := splitOnSlash target
  let normalized := parts.foldl normStep []
  "/" ++ String.intercalate "/" normalized

/-- FakeFilesystem.list_dir: None when the path is absent or not a
directory, otherwise the contents list. -/
def list_dir (f : FakeFilesystem) (path : String) : Option (List String) :=
  match f.fs path with
  | none => none
  | some node => if node.type ≠ "dir" then none else some node.contents

/-- FakeFilesystem.get_file_content. -/
def get_file_content (f : FakeFilesystem) (path : String) : Option String :=
  f.file_contents path

/-- FakeFilesystem.is_dir. -/
def is_dir (f : FakeFilesystem) (path : String) : Bool :=
  match f.fs path with
  | none => false
  | some node => node.type = "dir"

/-- FakeFilesystem.is_file: membership in the file_contents dict. -/
def is_file (f : FakeFilesystem) (path : String) : Bool :=
  (f.file_contents path).isSome

/-- Python str.strip of the slash character: drop leading and trailing
slash characters. -/
def stripSlashes (s : String) : String :=
  String.mk (((s.toList.dropWhile (fun c => c = '/')).reverse.dropWhile
    (fun c => c = '/')).reverse)

/-- The next_dir computation inside FakeFilesystem.deploy_decoy:
current_dir + part when at the root, otherwise current_dir + '/' + part. -/
def pyConcatDir (cur part : String) : String :=
  if cur = "/" then cur ++ part else cur ++ "/" ++ part

/-- The listing-registration pattern of FakeFilesystem.deploy_decoy:
when the directory cur exists and name is not yet in its contents,
append it; a missing cur leaves the dict untouched (in the loop body
the Python code guards creation so cur always exists, and the final
file registration is guarded by an explicit membership test). -/
def registerChild (fs : FsMap) (cur name : String) : FsMap :=
  match fs cur with
  | some node =>
    if name ∈ node.contents then fs
    else fsInsert fs cur ⟨node.type, node.contents ++ [name]⟩
  | none => fs

/-- The body of the missing-next_dir branch of the deploy_decoy loop:
create next_dir as an empty directory, then register part in the
current directory's listing when absent. -/
def createDir (fs : FsMap) (cur part nd : String) : FsMap :=
  registerChild (fsInsert fs nd ⟨"dir", []⟩) cur part

/-- The directory-creation loop of FakeFilesystem.deploy_decoy over
parts[:-1], threading the fs dict and current_dir.  A next_dir already
present is just entered; a missing one is created as an empty directory
and its name is registered in the parent listing when not already there. -/
def deployLoop (fs : FsMap) (cur : String) : List String → FsMap × String
  | [] => (fs, cur)
  | part :: rest =>
    if part = "" then deployLoop fs cur rest
    else
      let nd := pyConcatDir cur part
      match fs nd with
      | some _ => deployLoop fs nd rest
      | none => deployLoop (createDir fs cur part nd) nd rest

/-- FakeFilesystem.deploy_decoy (deception.py lines 158-186): set the
file content, synthesize missing ancestor directories, then register the
filename in the final directory's listing when that directory exists. -/
def deploy_decoy (f : FakeFilesystem) (path content : String) : FakeFilesystem :=
  let fc := fileInsert f.file_contents path content
  let parts := splitOnSlash (stripSlashes path)
  let filename := parts.getLastD ""
  let loopOut := deployLoop f.fs "/" parts.dropLast
  ⟨registerChild loopOut.1 loopOut.2 filename, fc⟩

/-- The directory-contents no-duplicates invariant of the fs dict. -/
def FsND (fs : FsMap) : Prop :=
  ∀ p n, fs p = some n → n.contents.Nodup

/-- The chain of (parent, part, next_dir) triples the deploy_decoy loop
walks; it depends only on the starting directory and the parts list,
never on the dict contents. -/
def chainOf (cur : String) : List String → List (String × String × String)
  | [] => []
  | part :: rest =>
    if part = "" then chainOf cur rest
    else (cur, part, pyConcatDir cur part) :: chainOf (pyConcatDir cur part) rest

/-- The final current_dir the deploy_decoy loop reaches. -/
def chainEnd (cur : String) : List String → String
  | [] => cur
  | part :: rest =>
    if part = "" then chainEnd cur rest
    else chainEnd (pyConcatDir cur part) rest

/-- The hardcoded initial directory tree built in FakeFilesystem.__init__
(the decoy_templates.json blueprint file is absent from the repository,
so _load_decoy_blueprints is a logged no-op). -/
def initFs : FsMap := fun p =>
  if p = "/" then some ⟨"dir", ["bin", "etc", "home", "var", "usr", "tmp", "root"]⟩
  else if p = "/bin" then some ⟨"dir", ["ls", "cd", "pwd", "cat", "echo", "bash", "sh"]⟩
  else if p = "/etc" then some ⟨"dir", ["passwd", "shadow", "hostname", "hosts"]⟩
  else if p = "/home" then some ⟨"dir", ["user"]⟩
  else if p = "/home/user" then some ⟨"dir", []⟩
  else if p = "/var" then some ⟨"dir", ["log", "www"]⟩
  else if p = "/var/log" then some ⟨"dir", ["auth.log", "syslog"]⟩
  else if p = "/root" then some ⟨"dir", []⟩
  else if p = "/tmp" then some ⟨"dir", []⟩
  else if p = "/usr" then some ⟨"dir", ["bin", "lib"]⟩
  else none

/-- The hardcoded initial file_contents dict of FakeFilesystem.__init__. -/
def initFileContents : FileMap := fun p =>
  if p = "/etc/passwd" then
    some "root:x:0:0:root:/root:/bin/bash\nuser:x:1000:1000:user:/home/user:/bin/bash\n"
  else if p = "/etc/shadow" then
    some "root:*:19777:0:99999:7:::\nuser:*:19777:0:99999:7:::\n"
  else if p = "/etc/hostname" then some "server01\n"
  else if p = "/etc/hosts" then some "127.0.0.1\tlocalhost\n127.0.1.1\tserver01\n"
  else none

/-- The FakeFilesystem produced by __init__ on this repository. -/
def initFakeFilesystem : FakeFilesystem := ⟨initFs, initFileContents⟩

/-- CommandSimulator state (deception.py lines 189-197). -/
structure CommandSimulator where
  fs : FakeFilesystem
  current_path : String
  hostname : String
  user : String

/-- CommandSimulator.__init__ with the default FakeFilesystem. -/
def initCommandSimulator : CommandSimulator :=
  ⟨initFakeFilesystem, "/root", "server01", "root"⟩

/-- Python str.split() with no argument: split on whitespace runs,
discarding empty pieces. -/
def pySplitWs (s : String) : List String :=
  ((splitCharsP Char.isWhitespace s.toList).map String.mk).filter (fun w => w ≠ "")

/-- CommandSimulator._cmd_ls (deception.py lines 234-249): flags are
filtered out, the first remaining argument (if any) is resolved, a
directory yields its joined listing, a file yields the argument as
typed, anything else the Unix-style error string. -/
def cmd_ls (sim : CommandSimulator) (args : List String) : String :=
  let paths := args.filter (fun a => ¬ startsWithChar '-' a)
  let target :=
    match paths with
    | [] => sim.current_path
    | p :: _ => resolve_path sim.current_path p
  let shown := match paths with | [] => target | p :: _ => p
  match list_dir sim.fs target with
  | some contents => String.intercalate "  " contents
  | none =>
    if is_file sim.fs target then shown
    else "ls: cannot access \x27" ++ shown ++ "\x27: No such file or directory"

/-- CommandSimulator._cmd_cd (deception.py lines 251-261). -/
def cmd_cd (sim : CommandSimulator) (args : List String) : CommandSimulator × String :=
  match args with
  | [] => ({ sim with current_path := "/root" }, "")
  | a :: _ =>
    let target := resolve_path sim.current_path a
    if is_dir sim.fs target then ({ sim with current_path := target }, "")
    else (sim, "cd: " ++ a ++ ": No such file or directory")

/-- CommandSimulator._cmd_cat (deception.py lines 263-275). -/
def cmd_cat (sim : CommandSimulator) (args : List String) : String :=
  match args with
  | [] => ""
  | a :: _ =>
    let target := resolve_path sim.current_path a
    match get_file_content sim.fs target with
    | some content => content
    | none =>
      if is_dir sim.fs target then "cat: " ++ a ++ ": Is a directory"
      else "cat: " ++ a ++ ": No such file or directory"

/-- CommandSimulator.execute_command (deception.py lines 199-232):
dispatch on the command word; only cd mutates the simulator. -/
def execute_command (sim : CommandSimulator) (cmd_line : String) : CommandSimulator × String :=
  match pySplitWs cmd_line with
  | [] => (sim, "")
  | cmd :: args =>
    if cmd = "ls" then (sim, cmd_ls sim args)
    else if cmd = "cd" then cmd_cd sim args
    else if cmd = "pwd" then (sim, sim.current_path)
    else if cmd = "cat" then (sim, cmd_cat sim args)
    else if cmd = "whoami" then (sim, sim.user)
    else if cmd = "id" then
      (sim, "uid=0(" ++ sim.user ++ ") gid=0(" ++ sim.user ++ ") groups=0(" ++ sim.user ++ ")")
    else if cmd = "uname" then
      if args.contains "-a" then
        (sim, "Linux server01 5.4.0-42-generic #46-Ubuntu SMP Fri Jul 10 00:24:02 UTC 2020 x86_64 x86_64 x86_64 GNU/Linux")
      else (sim, "Linux")
    else if cmd = "exit" then (sim, "EXIT")
    else (sim, cmd ++ ": command not found")

/-- honeypot.py MAX_ATTEMPTS. -/
def MAX_ATTEMPTS : Nat := 5

/-- honeypot.py BLOCK_DURATION (seconds). -/
def BLOCK_DURATION : Nat := 60

/-- One value of the BLOCKED_IPS dict: \x7b'attempts': n, 'until': t\x7d.
Time instants are Nat seconds. -/
structure BlockEntry where
  attempts : Nat
  blockedUntil : Nat
deriving DecidableEq, Repr

/-- The shared blocklist globals of honeypot.py: the BLOCKED_IPS dict and
the GLOBAL_BLOCKED_IPS set. -/
structure HoneypotState where
  blocked : String → Option BlockEntry
  globalBlocked : String → Bool

/-- An entry of the log queue as built by log_event (honeypot.py lines
147-159); the wall-clock timestamp is the Nat instant passed in. -/
structure LogEvent where
  timestamp : Nat
  event_type : String
  ip : String
  username : Option String
  password : Option String
  details : Option String
deriving DecidableEq, Repr

/-- The process-start value of the blocklist globals: BLOCKED_IPS and
GLOBAL_BLOCKED_IPS both empty. -/
def initHoneypotState : HoneypotState := ⟨fun _ => none, fun _ => false⟩

/-- A state whose global block set holds exactly 9.9.9.9 and whose local
map is empty. -/
def globalOnlyState : HoneypotState := ⟨fun _ => none, fun j => j == "9.9.9.9"⟩

/-- A state where 9.9.9.9 has an expired local block (five attempts,
'until' instant 10) and is also present in the global block set. -/
def expiredButGlobalState : HoneypotState :=
  ⟨fun j => if j = "9.9.9.9" then some ⟨5, 10⟩ else none, fun j => j == "9.9.9.9"⟩

/-- A state where 9.9.9.9 has an expired local block and no global
entry. -/
def expiredLocalState : HoneypotState :=
  ⟨fun j => if j = "9.9.9.9" then some ⟨5, 10⟩ else none, fun _ => false⟩

/-- honeypot.py log_event with only event_type and ip. -/
def log_event (now : Nat) (event_type ip : String) : LogEvent :=
  ⟨now, event_type, ip, none, none, none⟩

/-- honeypot.py is_blocked (lines 161-175): the global set wins first;
then a local entry at or above the threshold is blocked while 'until' is
in the future and lazily deleted once it is not.  The Python function
mutates BLOCKED_IPS, so the model returns the verdict together with the
resulting state. -/
def is_blocked (s : HoneypotState) (ip : String) (now : Nat) : Bool × HoneypotState :=
  if s.globalBlocked ip then (true, s)
  else
    match s.blocked ip with
    | some e =>
      if e.attempts ≥ MAX_ATTEMPTS then
        if now < e.blockedUntil then (true, s)
        else (false, { s with blocked := fun j => if j = ip then none else s.blocked j })
      else (false, s)
    | none => (false, s)

/-- honeypot.py block_ip (lines 177-189): create the entry when missing,
increment the attempt counter, and once the counter reaches
MAX_ATTEMPTS set 'until' and emit a BLOCK log event. -/
def block_ip (s : HoneypotState) (ip : String) (now : Nat) : HoneypotState × List LogEvent :=
  let e0 := (s.blocked ip).getD ⟨0, 0⟩
  let attempts1 := e0.attempts + 1
  if attempts1 ≥ MAX_ATTEMPTS then
    let e2 : BlockEntry := ⟨attempts1, now + BLOCK_DURATION⟩
    ({ s with blocked := fun j => if j = ip then some e2 else s.blocked j },
     [⟨now, "BLOCK", ip, none, none,
       some ("Blocked for " ++ toString BLOCK_DURATION ++ "s after "
             ++ toString MAX_ATTEMPTS ++ " attempts")⟩])
  else
    ({ s with blocked := fun j => if j = ip then some ⟨attempts1, e0.blockedUntil⟩ else s.blocked j },
     [])

/-- The bait-credential predicate of HoneypotServer.check_auth_password. -/
def isBaitCred (username password : String) : Bool :=
  (username = "admin" ∧ password = "admin") ∨ (username = "root" ∧ password = "1234")

/-- Result of one credential submission: the paramiko auth verdict
(true = AUTH_SUCCESSFUL), the resulting blocklist state, and the log
events enqueued during the call. -/
structure AuthOutcome where
  success : Bool
  state : HoneypotState
  events : List LogEvent

/-- HoneypotServer.check_auth_password (honeypot.py lines 205-223):
blocked IPs fail with no state change and no log; otherwise the attempt
is logged, bait credentials (or the ALLOW_ALL_CREDS flag) succeed, and
any other credential feeds block_ip. -/
def check_auth_password (allowAllCreds : Bool) (s : HoneypotState)
    (ip username password : String) (now : Nat) : AuthOutcome :=
  let chk := is_blocked s ip now
  if chk.1 then ⟨false, chk.2, []⟩
  else
    let ev : LogEvent := ⟨now, "LOGIN_ATTEMPT", ip, some username, some password, none⟩
    if allowAllCreds || isBaitCred username password then ⟨true, chk.2, [ev]⟩
    else
      let blk := block_ip chk.2 ip now
      ⟨false, blk.1, ev :: blk.2⟩

/-- One entry of session_history: the dict \x7b"command": cmd\x7d appended
for every executed command (honeypot.py line 314). -/
structure HistoryEntry where
  command : String
deriving DecidableEq, Repr

/-- The dynamic_decoy object of a decision response; every field is
optional, mirroring dict .get lookups. -/
structure DynamicDecoy where
  should_deploy : Option Bool := none
  path : Option String := none
  content : Option String := none

/-- Python truthiness of an optional string: absent and empty are falsy. -/
def optStrTruthy : Option String → Bool
  | none => false
  | some s => s ≠ ""

/-- The parsed JSON body of a decision-oracle response. -/
structure DecisionResponse where
  action : Option String := none
  dynamic_decoy : Option DynamicDecoy := none

/-- Outcome of the requests.post round trip to the oracle proxy:
a timeout, any other exception (connection error, JSON parse failure),
or a response with a status code and parsed decision body. -/
inductive OracleOutcome where
  | timeoutErr : OracleOutcome
  | exceptionErr : OracleOutcome
  | response (status : Nat) (decision : DecisionResponse)

/-- The eval_payload dict built at honeypot.py lines 319-335: the ip,
the command, the session history as accumulated so far (current command
included), and the current directory with its listing (list_dir returns
None or an empty list, both sent as []). -/
structure EvalPayload where
  ip : String
  command : String
  history : List HistoryEntry
  fs_path : String
  fs_contents : List String

/-- Build the eval_payload from the session state. -/
def mkEvalPayload (ip cmd : String) (history : List HistoryEntry)
    (sim : CommandSimulator) : EvalPayload :=
  let contents := match list_dir sim.fs sim.current_path with
    | some l => l
    | none => []
  ⟨ip, cmd, history, sim.current_path, contents⟩

/-- Per-session mutable state threaded through the command loop: the
simulator, the shared blocklist globals, and session_history. -/
structure SessionState where
  sim : CommandSimulator
  honey : HoneypotState
  history : List HistoryEntry

/-- Everything one command-processing iteration of handle_connection
does: the resulting state, whether execute_command ran and its output,
the decoy deployed (if any), the request sent to the oracle (if one was
configured), the messages written to the channel, whether the BLOCK
branch terminated the session, whether the command itself requested
exit, and the log events enqueued. -/
structure CmdStepResult where
  state : SessionState
  executed : Bool
  output : Option String
  deployedDecoy : Option (String × String)
  oracleRequest : Option EvalPayload
  sentMessages : List String
  policyTerminated : Bool
  exitedByCommand : Bool
  events : List LogEvent

/-- The tail of the command iteration (honeypot.py lines 372-384): run
the interpreter, enqueue CMD_EXEC, stop on EXIT, otherwise send the
output with SSH line endings. -/
def executePhase (s : SessionState) (ip cmd : String) (now : Nat)
    (history1 : List HistoryEntry) (oracleReq : Option EvalPayload)
    (deployed : Option (String × String)) : CmdStepResult :=
  let run := execute_command s.sim cmd
  let sim1 := run.1
  let output := run.2
  let ev : LogEvent :=
    ⟨now, "CMD_EXEC", ip, none, none,
     some ("Cmd: " ++ cmd ++ ", Out: " ++ output.take 50 ++ "...")⟩
  if output = "EXIT" then
    { state := ⟨sim1, s.honey, history1⟩, executed := true, output := some output,
      deployedDecoy := deployed, oracleRequest := oracleReq, sentMessages := [],
      policyTerminated := false, exitedByCommand := true, events := [ev] }
  else
    let outSsh := output.replace "\n" "\r\n"
    { state := ⟨sim1, s.honey, history1⟩, executed := true, output := some output,
      deployedDecoy := deployed, oracleRequest := oracleReq,
      sentMessages := if outSsh ≠ "" then [outSsh ++ "\r\n"] else [],
      policyTerminated := false, exitedByCommand := false, events := [ev] }

/-- One non-empty-command iteration of the handle_connection shell loop
(honeypot.py lines 311-384).  The oracle argument is none when no
CONTROLLER_URL is configured; otherwise it carries the outcome of the
requests.post round trip for this command.  A 200 BLOCK decision sends
the termination notice, feeds block_ip, write-through inserts the ip
into GLOBAL_BLOCKED_IPS and ends the session without executing; a 200
non-BLOCK decision may deploy a decoy before execution; any other
status, a timeout or an exception falls through to plain execution. -/
def processCommand (oracle : Option OracleOutcome) (s : SessionState)
    (ip cmd : String) (now : Nat) : CmdStepResult :=
  let history1 := s.history ++ [⟨cmd⟩]
  match oracle with
  | none => executePhase s ip cmd now history1 none none
  | some outcome =>
    let payload := mkEvalPayload ip cmd history1 s.sim
    match outcome with
    | .timeoutErr => executePhase s ip cmd now history1 (some payload) none
    | .exceptionErr => executePhase s ip cmd now history1 (some payload) none
    | .response status decision =>
      if status = 200 then
        if decision.action.getD "ALLOW" = "BLOCK" then
          let blk := block_ip s.honey ip now
          let honey2 : HoneypotState :=
            { blk.1 with globalBlocked := fun j => if j = ip then true else blk.1.globalBlocked j }
          { state := ⟨s.sim, honey2, history1⟩, executed := false, output := none,
            deployedDecoy := none, oracleRequest := some payload,
            sentMessages := ["\r\nConnection terminated by security policy.\r\n"],
            policyTerminated := true, exitedByCommand := false, events := blk.2 }
        else
          let decoy := decision.dynamic_decoy.getD {}
          let deployed :=
            if decoy.should_deploy.getD false ∧ optStrTruthy decoy.path ∧ optStrTruthy decoy.content then
              some (decoy.path.getD "", decoy.content.getD "")
            else none
          let s1 :=
            match deployed with
            | some pc => { s with sim := { s.sim with fs := deploy_decoy s.sim.fs pc.1 pc.2 } }
            | none => s
          executePhase s1 ip cmd now history1 (some payload) deployed
      else
        executePhase s ip cmd now history1 (some payload) none

/-! ## Helper lemmas -/

theorem executePhase_spec (s : SessionState) (ip cmd : String) (now : Nat)
    (history1 : List HistoryEntry) (oracleReq : Option EvalPayload)
    (deployed : Option (String × String)) :
    (executePhase s ip cmd now history1 oracleReq deployed).executed = true ∧
    (executePhase s ip cmd now history1 oracleReq deployed).deployedDecoy = deployed ∧
    (executePhase s ip cmd now history1 oracleReq deployed).policyTerminated = false ∧
    (executePhase s ip cmd now history1 oracleReq deployed).oracleRequest = oracleReq := by
  unfold executePhase
  try dsimp only
  split <;> exact ⟨rfl, rfl, rfl, rfl⟩

theorem block_ip_mem (s : HoneypotState) (ip : String) (now : Nat) :
    (((block_ip s ip now).1).blocked ip).isSome := by
  unfold block_ip
  try dsimp only
  split <;> simp

theorem is_blocked_true_frame (s : HoneypotState) (ip : String) (now : Nat)
    (h : (is_blocked s ip now).1 = true) : (is_blocked s ip now).2 = s := by
  unfold is_blocked at h ⊢
  cases hg : s.globalBlocked ip with
  | true => simp [hg]
  | false =>
    simp only [hg, Bool.false_eq_true, if_false] at h ⊢
    cases hb : s.blocked ip with
    | none => simp [hb] at h
    | some e =>
      simp only [hb] at h ⊢
      by_cases h5 : e.attempts ≥ MAX_ATTEMPTS
      · by_cases ht : now < e.blockedUntil
        · simp [h5, ht]
        · simp [h5, ht] at h
      · simp [h5] at h

theorem str_length_append (a b : String) : (a ++ b).length = a.length + b.length := by
  show (String.append a b).length = _
  cases a with
  | mk da =>
    cases b with
    | mk db => simp [String.append, String.length]

theorem str_ne_empty_length_pos (s : String) (h : s ≠ "") : 0 < s.length := by
  cases s with
  | mk data =>
    cases data with
    | nil => exact absurd rfl h
    | cons c cs => simp [String.length]

theorem pyConcatDir_length_lt (cur part : String) (h : part ≠ "") :
    cur.length < (pyConcatDir cur part).length := by
  have hp := str_ne_empty_length_pos part h
  unfold pyConcatDir
  split
  · rw [str_length_append]
    omega
  · rw [str_length_append, str_length_append]
    omega

theorem pyConcatDir_ne (cur part : String) (h : part ≠ "") : pyConcatDir cur part ≠ cur := by
  intro he
  have := pyConcatDir_length_lt cur part h
  rw [he] at this
  omega

theorem chainOf_length (parts : List String) : ∀ cur pp prt nd,
    (pp, prt, nd) ∈ chainOf cur parts →
    cur.length ≤ pp.length ∧ pp.length < nd.length ∧ prt ≠ "" := by
  induction parts with
  | nil =>
    intro cur pp prt nd h
    simp [chainOf] at h
  | cons part rest ih =>
    intro cur pp prt nd h
    unfold chainOf at h
    by_cases hp : part = ""
    · rw [if_pos hp] at h
      exact ih cur pp prt nd h
    · rw [if_neg hp] at h
      rcases List.mem_cons.mp h with heq | hmem
      · injection heq with ha hbc
        injection hbc with hb hc
        subst ha; subst hb; subst hc
        exact ⟨Nat.le_refl _, pyConcatDir_length_lt _ _ hp, hp⟩
      · have hlt := pyConcatDir_length_lt cur part hp
        have := ih (pyConcatDir cur part) pp prt nd hmem
        exact ⟨by omega, this.2.1, this.2.2⟩

theorem registerChild_isSome (fs : FsMap) (cur name q : String) (h : (fs q).isSome) :
    ((registerChild fs cur name) q).isSome := by
  unfold registerChild
  cases hc : fs cur with
  | none => exact h
  | some node =>
    try dsimp only
    split
    · exact h
    · unfold fsInsert
      try dsimp only
      by_cases hq : q = cur
      · rw [if_pos hq]; rfl
      · rw [if_neg hq]; exact h

theorem registerChild_off (fs : FsMap) (cur name q : String) (hq : q ≠ cur) :
    registerChild fs cur name q = fs q := by
  unfold registerChild
  cases hc : fs cur with
  | none => rfl
  | some node =>
    try dsimp only
    split
    · rfl
    · unfold fsInsert
      rw [if_neg hq]

theorem registerChild_mem (fs : FsMap) (cur name : String) (node : FsNode)
    (hc : fs cur = some node) :
    ∃ node2, registerChild fs cur name cur = some node2 ∧ name ∈ node2.contents := by
  unfold registerChild
  rw [hc]
  try dsimp only
  by_cases hm : name ∈ node.contents
  · rw [if_pos hm]; exact ⟨node, hc, hm⟩
  · rw [if_neg hm]
    refine ⟨⟨node.type, node.contents ++ [name]⟩, ?_, ?_⟩
    · unfold fsInsert; simp
    · simp

theorem registerChild_mem_mono (fs : FsMap) (cur name q : String) (node : FsNode)
    (nm : String) (hq : fs q = some node) (hm : nm ∈ node.contents) :
    ∃ node2, registerChild fs cur name q = some node2 ∧ nm ∈ node2.contents := by
  by_cases hqc : q = cur
  · subst hqc
    unfold registerChild
    rw [hq]
    try dsimp only
    by_cases hmem : name ∈ node.contents
    · rw [if_pos hmem]; exact ⟨node, hq, hm⟩
    · rw [if_neg hmem]
      refine ⟨⟨node.type, node.contents ++ [name]⟩, ?_, ?_⟩
      · unfold fsInsert; simp
      · simp [hm]
  · rw [registerChild_off fs cur name q hqc]
    exact ⟨node, hq, hm⟩

theorem registerChild_nd (fs : FsMap) (cur name : String) (h : FsND fs) :
    FsND (registerChild fs cur name) := by
  intro q n hq
  unfold registerChild at hq
  cases hc : fs cur with
  | none => rw [hc] at hq; exact h q n hq
  | some node =>
    rw [hc] at hq
    dsimp only at hq
    by_cases hm : name ∈ node.contents
    · rw [if_pos hm] at hq; exact h q n hq
    · rw [if_neg hm] at hq
      unfold fsInsert at hq
      by_cases hqc : q = cur
      · rw [if_pos hqc] at hq
        injection hq with hq
        subst hq
        have hnodup := h cur node hc
        simp [List.nodup_append, hnodup, hm]
      · rw [if_neg hqc] at hq; exact h q n hq

theorem registerChild_noop (fs : FsMap) (cur name : String) (node : FsNode)
    (hc : fs cur = some node) (hm : name ∈ node.contents) :
    registerChild fs cur name = fs := by
  unfold registerChild
  rw [hc]
  try dsimp only
  rw [if_pos hm]

theorem createDir_self (fs : FsMap) (cur part nd : String) (hne : nd ≠ cur) :
    createDir fs cur part nd nd = some ⟨"dir", []⟩ := by
  unfold createDir
  rw [registerChild_off _ _ _ _ hne]
  unfold fsInsert
  simp

theorem createDir_off (fs : FsMap) (cur part nd q : String) (h1 : q ≠ nd) (h2 : q ≠ cur) :
    createDir fs cur part nd q = fs q := by
  unfold createDir
  rw [registerChild_off _ _ _ _ h2]
  unfold fsInsert
  try dsimp only
  rw [if_neg h1]

theorem createDir_isSome (fs : FsMap) (cur part nd q : String) (h : (fs q).isSome) :
    (createDir fs cur part nd q).isSome := by
  unfold createDir
  apply registerChild_isSome
  unfold fsInsert
  try dsimp only
  by_cases hq : q = nd
  · rw [if_pos hq]; rfl
  · rw [if_neg hq]; exact h

theorem createDir_mem_mono (fs : FsMap) (cur part nd q : String) (node : FsNode)
    (nm : String) (hnone : fs nd = none) (hq : fs q = some node) (hm : nm ∈ node.contents) :
    ∃ node2, createDir fs cur part nd q = some node2 ∧ nm ∈ node2.contents := by
  have hqnd : q ≠ nd := by
    intro h
    rw [h, hnone] at hq
    exact Option.noConfusion hq
  unfold createDir
  apply registerChild_mem_mono
  · show fsInsert fs nd ⟨"dir", []⟩ q = some node
    unfold fsInsert
    try dsimp only
    rw [if_neg hqnd]
    exact hq
  · exact hm

theorem createDir_parent_mem (fs : FsMap) (cur part nd : String) (hne : nd ≠ cur)
    (node : FsNode) (hc : fs cur = some node) :
    ∃ node2, createDir fs cur part nd cur = some node2 ∧ part ∈ node2.contents := by
  unfold createDir
  apply registerChild_mem
  unfold fsInsert
  rw [if_neg (Ne.symm hne)]
  exact hc

theorem createDir_nd (fs : FsMap) (cur part nd : String) (h : FsND fs) :
    FsND (createDir fs cur part nd) := by
  unfold createDir
  apply registerChild_nd
  intro q n hq
  unfold fsInsert at hq
  by_cases hqnd : q = nd
  · rw [if_pos hqnd] at hq
    injection hq with hq
    subst hq
    exact List.nodup_nil
  · rw [if_neg hqnd] at hq
    exact h q n hq

theorem deployLoop_cons_skip (fs : FsMap) (cur : String) (rest : List String) :
    deployLoop fs cur ("" :: rest) = deployLoop fs cur rest := by
  rw [deployLoop, if_pos rfl]

theorem deployLoop_cons_some (fs : FsMap) (cur part : String) (rest : List String)
    (hp : part ≠ "") (hnd : (fs (pyConcatDir cur part)).isSome) :
    deployLoop fs cur (part :: rest) = deployLoop fs (pyConcatDir cur part) rest := by
  obtain ⟨v, hv⟩ := Option.isSome_iff_exists.mp hnd
  rw [deployLoop, if_neg hp]
  simp only [hv]

theorem deployLoop_cons_none (fs : FsMap) (cur part : String) (rest : List String)
    (hp : part ≠ "") (hnd : fs (pyConcatDir cur part) = none) :
    deployLoop fs cur (part :: rest)
      = deployLoop (createDir fs cur part (pyConcatDir cur part)) (pyConcatDir cur part) rest := by
  rw [deployLoop, if_neg hp]
  simp only [hnd]

theorem deployLoop_snd (parts : List String) :
    ∀ fs cur, (deployLoop fs cur parts).2 = chainEnd cur parts := by
  induction parts with
  | nil => intro fs cur; rfl
  | cons part rest ih =>
    intro fs cur
    by_cases hp : part = ""
    · subst hp
      rw [deployLoop_cons_skip]
      unfold chainEnd
      rw [if_pos rfl]
      exact ih fs cur
    · unfold chainEnd
      rw [if_neg hp]
      cases hnd : fs (pyConcatDir cur part) with
      | some v =>
        rw [deployLoop_cons_some fs cur part rest hp (by rw [hnd]; rfl)]
        exact ih fs _
      | none =>
        rw [deployLoop_cons_none fs cur part rest hp hnd]
        exact ih _ _

theorem deployLoop_isSome (parts : List String) :
    ∀ fs cur q, (fs q).isSome → ((deployLoop fs cur parts).1 q).isSome := by
  induction parts with
  | nil => intro fs cur q h; exact h
  | cons part rest ih =>
    intro fs cur q h
    by_cases hp : part = ""
    · subst hp
      rw [deployLoop_cons_skip]
      exact ih fs cur q h
    · cases hnd : fs (pyConcatDir cur part) with
      | some v =>
        rw [deployLoop_cons_some fs cur part rest hp (by rw [hnd]; rfl)]
        exact ih fs _ q h
      | none =>
        rw [deployLoop_cons_none fs cur part rest hp hnd]
        exact ih _ _ q (createDir_isSome fs cur part _ q h)

theorem deployLoop_mem_mono (parts : List String) :
    ∀ fs cur q node nm, fs q = some node → nm ∈ node.contents →
    ∃ node2, (deployLoop fs cur parts).1 q = some node2 ∧ nm ∈ node2.contents := by
  induction parts with
  | nil => intro fs cur q node nm hq hm; exact ⟨node, hq, hm⟩
  | cons part rest ih =>
    intro fs cur q node nm hq hm
    by_cases hp : part = ""
    · subst hp
      rw [deployLoop_cons_skip]
      exact ih fs cur q node nm hq hm
    · cases hnd : fs (pyConcatDir cur part) with
      | some v =>
        rw [deployLoop_cons_some fs cur part rest hp (by rw [hnd]; rfl)]
        exact ih fs _ q node nm hq hm
      | none =>
        rw [deployLoop_cons_none fs cur part rest hp hnd]
        obtain ⟨node1, h1, h2⟩ := createDir_mem_mono fs cur part _ q node nm hnd hq hm
        exact ih _ _ q node1 nm h1 h2

theorem deployLoop_end_isSome (parts : List String) :
    ∀ fs cur, (fs cur).isSome → ((deployLoop fs cur parts).1 (chainEnd cur parts)).isSome := by
  induction parts with
  | nil => intro fs cur h; exact h
  | cons part rest ih =>
    intro fs cur h
    by_cases hp : part = ""
    · subst hp
      rw [deployLoop_cons_skip]
      unfold chainEnd
      rw [if_pos rfl]
      exact ih fs cur h
    · unfold chainEnd
      rw [if_neg hp]
      cases hnd : fs (pyConcatDir cur part) with
      | some v =>
        rw [deployLoop_cons_some fs cur part rest hp (by rw [hnd]; rfl)]
        exact ih fs _ (by rw [hnd]; rfl)
      | none =>
        rw [deployLoop_cons_none fs cur part rest hp hnd]
        refine ih _ _ ?_
        rw [createDir_self fs cur part _ (pyConcatDir_ne cur part hp)]
        rfl

theorem deployLoop_chain_present (parts : List String) :
    ∀ fs cur pp prt nd, (pp, prt, nd) ∈ chainOf cur parts →
    ((deployLoop fs cur parts).1 nd).isSome := by
  induction parts with
  | nil => intro fs cur pp prt nd h; simp [chainOf] at h
  | cons part rest ih =>
    intro fs cur pp prt nd h
    by_cases hp : part = ""
    · subst hp
      unfold chainOf at h
      rw [if_pos rfl] at h
      rw [deployLoop_cons_skip]
      exact ih fs cur pp prt nd h
    · unfold chainOf at h
      rw [if_neg hp] at h
      rcases List.mem_cons.mp h with heq | hmem
      · injection heq with ha hbc
        injection hbc with hb hc
        subst hc
        cases hnd : fs (pyConcatDir cur part) with
        | some v =>
          rw [deployLoop_cons_some fs cur part rest hp (by rw [hnd]; rfl)]
          exact deployLoop_isSome rest fs _ _ (by rw [hnd]; rfl)
        | none =>
          rw [deployLoop_cons_none fs cur part rest hp hnd]
          refine deployLoop_isSome rest _ _ _ ?_
          rw [createDir_self fs cur part _ (pyConcatDir_ne cur part hp)]
          rfl
      · cases hnd : fs (pyConcatDir cur part) with
        | some v =>
          rw [deployLoop_cons_some fs cur part rest hp (by rw [hnd]; rfl)]
          exact ih fs _ pp prt nd hmem
        | none =>
          rw [deployLoop_cons_none fs cur part rest hp hnd]
          exact ih _ _ pp prt nd hmem

theorem deployLoop_nd (parts : List String) :
    ∀ fs cur, FsND fs → FsND (deployLoop fs cur parts).1 := by
  induction parts with
  | nil => intro fs cur h; exact h
  | cons part rest ih =>
    intro fs cur h
    by_cases hp : part = ""
    · subst hp
      rw [deployLoop_cons_skip]
      exact ih fs cur h
    · cases hnd : fs (pyConcatDir cur part) with
      | some v =>
        rw [deployLoop_cons_some fs cur part rest hp (by rw [hnd]; rfl)]
        exact ih fs _ h
      | none =>
        rw [deployLoop_cons_none fs cur part rest hp hnd]
        exact ih _ _ (createDir_nd fs cur part _ h)

theorem deployLoop_established (parts : List String) :
    ∀ fs cur, (fs cur).isSome → ∀ pp prt nd, (pp, prt, nd) ∈ chainOf cur parts →
    fs nd = none →
    ∃ node2, (deployLoop fs cur parts).1 pp = some node2 ∧ prt ∈ node2.contents := by
  induction parts with
  | nil => intro fs cur _ pp prt nd h; simp [chainOf] at h
  | cons part rest ih =>
    intro fs cur hcur pp prt nd hmem hnone
    by_cases hp : part = ""
    · subst hp
      unfold chainOf at hmem
      rw [if_pos rfl] at hmem
      rw [deployLoop_cons_skip]
      exact ih fs cur hcur pp prt nd hmem hnone
    · have hne : pyConcatDir cur part ≠ cur := pyConcatDir_ne cur part hp
      unfold chainOf at hmem
      rw [if_neg hp] at hmem
      rcases List.mem_cons.mp hmem with heq | hmemt
      · injection heq with ha hbc
        injection hbc with hb hc
        subst ha; subst hb; subst hc
        rw [deployLoop_cons_none _ _ _ rest hp hnone]
        obtain ⟨node0, hn0⟩ := Option.isSome_iff_exists.mp hcur
        obtain ⟨node1, h1, h2⟩ := createDir_parent_mem _ _ _ _ hne node0 hn0
        exact deployLoop_mem_mono rest _ _ _ node1 _ h1 h2
      · cases hndh : fs (pyConcatDir cur part) with
        | some v =>
          rw [deployLoop_cons_some fs cur part rest hp (by rw [hndh]; rfl)]
          exact ih fs _ (by rw [hndh]; rfl) pp prt nd hmemt hnone
        | none =>
          rw [deployLoop_cons_none fs cur part rest hp hndh]
          have hlen := chainOf_length rest (pyConcatDir cur part) pp prt nd hmemt
          have hndlen : (pyConcatDir cur part).length < nd.length :=
            Nat.lt_of_le_of_lt hlen.1 hlen.2.1
          have hclen : cur.length < (pyConcatDir cur part).length :=
            pyConcatDir_length_lt cur part hp
          have hne1 : nd ≠ pyConcatDir cur part := by
            intro h
            rw [h] at hndlen
            exact Nat.lt_irrefl _ hndlen
          have hne2 : nd ≠ cur := by
            intro h
            rw [h] at hndlen
            omega
          refine ih _ _ ?_ pp prt nd hmemt ?_
          · rw [createDir_self fs cur part _ hne]
            rfl
          · rw [createDir_off fs cur part _ nd hne1 hne2]
            exact hnone

theorem deployLoop_noop (parts : List String) :
    ∀ fs cur, (∀ pp prt nd, (pp, prt, nd) ∈ chainOf cur parts → (fs nd).isSome) →
    deployLoop fs cur parts = (fs, chainEnd cur parts) := by
  induction parts with
  | nil => intro fs cur _; rfl
  | cons part rest ih =>
    intro fs cur h
    by_cases hp : part = ""
    · subst hp
      rw [deployLoop_cons_skip]
      unfold chainEnd
      rw [if_pos rfl]
      refine ih fs cur ?_
      intro pp prt nd hm
      refine h pp prt nd ?_
      unfold chainOf
      rw [if_pos rfl]
      exact hm
    · have hh : (fs (pyConcatDir cur part)).isSome := by
        refine h cur part (pyConcatDir cur part) ?_
        unfold chainOf
        rw [if_neg hp]
        exact List.mem_cons_self _ _
      rw [deployLoop_cons_some fs cur part rest hp hh]
      unfold chainEnd
      rw [if_neg hp]
      refine ih fs _ ?_
      intro pp prt nd hm
      refine h pp prt nd ?_
      unfold chainOf
      rw [if_neg hp]
      exact List.mem_cons_of_mem _ hm

theorem deploy_decoy_fs_eq (f : FakeFilesystem) (path content : String) :
    (deploy_decoy f path content).fs
      = registerChild (deployLoop f.fs "/" ((splitOnSlash (stripSlashes path)).dropLast)).1
          (deployLoop f.fs "/" ((splitOnSlash (stripSlashes path)).dropLast)).2
          ((splitOnSlash (stripSlashes path)).getLastD "") := rfl

theorem deploy_decoy_nd (f : FakeFilesystem) (path content : String) (h : FsND f.fs) :
    FsND (deploy_decoy f path content).fs := by
  rw [deploy_decoy_fs_eq]
  exact registerChild_nd _ _ _ (deployLoop_nd _ _ _ h)

theorem deploy_decoy_parent_mem (f : FakeFilesystem) (path content : String)
    (hroot : (f.fs "/").isSome) :
    ∃ node, (deploy_decoy f path content).fs
        (chainEnd "/" ((splitOnSlash (stripSlashes path)).dropLast)) = some node
      ∧ (splitOnSlash (stripSlashes path)).getLastD "" ∈ node.contents := by
  rw [deploy_decoy_fs_eq, deployLoop_snd]
  have hend := deployLoop_end_isSome ((splitOnSlash (stripSlashes path)).dropLast) f.fs "/" hroot
  obtain ⟨node0, h0⟩ := Option.isSome_iff_exists.mp hend
  exact registerChild_mem _ _ _ node0 h0

theorem deploy_decoy_ancestor_mem (f : FakeFilesystem) (path content : String)
    (hroot : (f.fs "/").isSome) (pp prt nd : String)
    (hmem : (pp, prt, nd) ∈ chainOf "/" ((splitOnSlash (stripSlashes path)).dropLast))
    (hnone : f.fs nd = none) :
    ∃ node, (deploy_decoy f path content).fs pp = some node ∧ prt ∈ node.contents := by
  rw [deploy_decoy_fs_eq]
  obtain ⟨node1, h1, h2⟩ := deployLoop_established
    ((splitOnSlash (stripSlashes path)).dropLast) f.fs "/" hroot pp prt nd hmem hnone
  exact registerChild_mem_mono _ _ _ pp node1 prt h1 h2

theorem deploy_decoy_isSome (f : FakeFilesystem) (path content : String) (q : String)
    (h : (f.fs q).isSome) : ((deploy_decoy f path content).fs q).isSome := by
  rw [deploy_decoy_fs_eq]
  exact registerChild_isSome _ _ _ q (deployLoop_isSome _ _ _ q h)

theorem deploy_decoy_idem_fs (f : FakeFilesystem) (path content : String)
    (hroot : (f.fs "/").isSome) :
    (deploy_decoy (deploy_decoy f path content) path content).fs
      = (deploy_decoy f path content).fs := by
  have hpres : ∀ pp prt nd,
      (pp, prt, nd) ∈ chainOf "/" ((splitOnSlash (stripSlashes path)).dropLast) →
      ((deploy_decoy f path content).fs nd).isSome := by
    intro pp prt nd hm
    have hloop := deployLoop_chain_present
      ((splitOnSlash (stripSlashes path)).dropLast) f.fs "/" pp prt nd hm
    rw [deploy_decoy_fs_eq]
    exact registerChild_isSome _ _ _ nd hloop
  obtain ⟨nodeP, hP1, hP2⟩ := deploy_decoy_parent_mem f path content hroot
  rw [deploy_decoy_fs_eq (deploy_decoy f path content) path content]
  rw [deployLoop_noop ((splitOnSlash (stripSlashes path)).dropLast)
    (deploy_decoy f path content).fs "/" hpres]
  exact registerChild_noop _ _ _ nodeP hP1 hP2

theorem is_blocked_none_entry (s : HoneypotState) (ip : String) (now : Nat)
    (hg : s.globalBlocked ip = false) (h0 : s.blocked ip = none) :
    is_blocked s ip now = (false, s) := by
  unfold is_blocked
  rw [h0, hg]
  simp

theorem is_blocked_small (s : HoneypotState) (ip : String) (now k bu : Nat)
    (hg : s.globalBlocked ip = false) (he : s.blocked ip = some ⟨k, bu⟩)
    (hk : k < MAX_ATTEMPTS) :
    is_blocked s ip now = (false, s) := by
  unfold is_blocked
  rw [he, hg]
  simp [Nat.not_le.mpr hk]

theorem is_blocked_active (s : HoneypotState) (ip : String) (now k bu : Nat)
    (hg : s.globalBlocked ip = false) (he : s.blocked ip = some ⟨k, bu⟩)
    (hk : MAX_ATTEMPTS ≤ k) (ht : now < bu) :
    (is_blocked s ip now).1 = true := by
  unfold is_blocked
  rw [he, hg]
  simp [hk, ht]

theorem is_blocked_expired (s : HoneypotState) (ip : String) (now k bu : Nat)
    (hg : s.globalBlocked ip = false) (he : s.blocked ip = some ⟨k, bu⟩)
    (hk : MAX_ATTEMPTS ≤ k) (ht : bu ≤ now) :
    is_blocked s ip now
      = (false, { s with blocked := fun j => if j = ip then none else s.blocked j }) := by
  unfold is_blocked
  rw [he, hg]
  simp [hk, Nat.not_lt.mpr ht]

theorem check_auth_fail_none (s : HoneypotState) (ip u p : String) (t : Nat)
    (hg : s.globalBlocked ip = false) (h0 : s.blocked ip = none)
    (hb : isBaitCred u p = false) :
    check_auth_password false s ip u p t
      = ⟨false, { s with blocked := fun j => if j = ip then some ⟨1, 0⟩ else s.blocked j },
         [⟨t, "LOGIN_ATTEMPT", ip, some u, some p, none⟩]⟩ := by
  unfold check_auth_password
  rw [is_blocked_none_entry s ip t hg h0]
  try dsimp only
  rw [hb]
  unfold block_ip
  rw [h0]
  simp [MAX_ATTEMPTS]

theorem check_auth_fail_step (s : HoneypotState) (ip u p : String) (t k bu : Nat)
    (hg : s.globalBlocked ip = false) (he : s.blocked ip = some ⟨k, bu⟩)
    (hb : isBaitCred u p = false) (hk1 : k + 1 < MAX_ATTEMPTS) :
    check_auth_password false s ip u p t
      = ⟨false, { s with blocked := fun j => if j = ip then some ⟨k + 1, bu⟩ else s.blocked j },
         [⟨t, "LOGIN_ATTEMPT", ip, some u, some p, none⟩]⟩ := by
  have hk : k < MAX_ATTEMPTS := Nat.lt_of_succ_lt hk1
  unfold check_auth_password
  rw [is_blocked_small s ip t k bu hg he hk]
  try dsimp only
  rw [hb]
  unfold block_ip
  rw [he]
  simp [Nat.not_le.mpr hk1]

theorem check_auth_fail_threshold (s : HoneypotState) (ip u p : String) (t k bu : Nat)
    (hg : s.globalBlocked ip = false) (he : s.blocked ip = some ⟨k, bu⟩)
    (hb : isBaitCred u p = false) (hk : k < MAX_ATTEMPTS) (hk5 : MAX_ATTEMPTS ≤ k + 1) :
    check_auth_password false s ip u p t
      = ⟨false,
         { s with blocked := fun j => if j = ip then some ⟨k + 1, t + BLOCK_DURATION⟩ else s.blocked j },
         [⟨t, "LOGIN_ATTEMPT", ip, some u, some p, none⟩,
          ⟨t, "BLOCK", ip, none, none,
           some ("Blocked for " ++ toString BLOCK_DURATION ++ "s after "
                 ++ toString MAX_ATTEMPTS ++ " attempts")⟩]⟩ := by
  unfold check_auth_password
  rw [is_blocked_small s ip t k bu hg he hk]
  try dsimp only
  rw [hb]
  unfold block_ip
  rw [he]
  simp [hk5]

/-- Five consecutive failed non-bait submissions from a fresh ip: the
first four fail silently (no BLOCK) and leave the ip unblocked, the
fifth fails, emits the BLOCK event, and blocks the ip from its instant
until BLOCK_DURATION later, after which is_blocked is false again. -/
theorem five_fresh_failures_spec (s0 : HoneypotState) (ip u p : String)
    (t1 t2 t3 t4 t5 : Nat)
    (hg : s0.globalBlocked ip = false) (h0 : s0.blocked ip = none)
    (hb : isBaitCred u p = false) :
    (check_auth_password false s0 ip u p t1).success = false
    ∧ (check_auth_password false s0 ip u p t1).events
        = [⟨t1, "LOGIN_ATTEMPT", ip, some u, some p, none⟩]
    ∧ (∀ t, (is_blocked (check_auth_password false
        (check_auth_password false
          (check_auth_password false
            (check_auth_password false s0 ip u p t1).state ip u p t2).state
          ip u p t3).state ip u p t4).state ip t).1 = false)
    ∧ (check_auth_password false (check_auth_password false
        (check_auth_password false
          (check_auth_password false
            (check_auth_password false s0 ip u p t1).state ip u p t2).state
          ip u p t3).state ip u p t4).state ip u p t5).events
        = [⟨t5, "LOGIN_ATTEMPT", ip, some u, some p, none⟩,
           ⟨t5, "BLOCK", ip, none, none,
            some ("Blocked for " ++ toString BLOCK_DURATION ++ "s after "
                  ++ toString MAX_ATTEMPTS ++ " attempts")⟩]
    ∧ (∀ t, t < t5 + BLOCK_DURATION →
        (is_blocked (check_auth_password false (check_auth_password false
          (check_auth_password false
            (check_auth_password false
              (check_auth_password false s0 ip u p t1).state ip u p t2).state
            ip u p t3).state ip u p t4).state ip u p t5).state ip t).1 = true)
    ∧ (∀ t, t5 + BLOCK_DURATION ≤ t →
        (is_blocked (check_auth_password false (check_auth_password false
          (check_auth_password false
            (check_auth_password false
              (check_auth_password false s0 ip u p t1).state ip u p t2).state
            ip u p t3).state ip u p t4).state ip u p t5).state ip t).1 = false) := by
  have e1 := check_auth_fail_none s0 ip u p t1 hg h0 hb
  set s1 := (check_auth_password false s0 ip u p t1).state with hs1
  have hs1e : s1 = { s0 with blocked := fun j => if j = ip then some ⟨1, 0⟩ else s0.blocked j } := by
    rw [hs1, e1]
  have hg1 : s1.globalBlocked ip = false := by rw [hs1e]; exact hg
  have he1 : s1.blocked ip = some ⟨1, 0⟩ := by rw [hs1e]; simp
  have e2 := check_auth_fail_step s1 ip u p t2 1 0 hg1 he1 hb (by decide)
  set s2 := (check_auth_password false s1 ip u p t2).state with hs2
  have hs2e : s2 = { s1 with blocked := fun j => if j = ip then some ⟨2, 0⟩ else s1.blocked j } := by
    rw [hs2, e2]
  have hg2 : s2.globalBlocked ip = false := by rw [hs2e]; exact hg1
  have he2 : s2.blocked ip = some ⟨2, 0⟩ := by rw [hs2e]; simp
  have e3 := check_auth_fail_step s2 ip u p t3 2 0 hg2 he2 hb (by decide)
  set s3 := (check_auth_password false s2 ip u p t3).state with hs3
  have hs3e : s3 = { s2 with blocked := fun j => if j = ip then some ⟨3, 0⟩ else s2.blocked j } := by
    rw [hs3, e3]
  have hg3 : s3.globalBlocked ip = false := by rw [hs3e]; exact hg2
  have he3 : s3.blocked ip = some ⟨3, 0⟩ := by rw [hs3e]; simp
  have e4 := check_auth_fail_step s3 ip u p t4 3 0 hg3 he3 hb (by decide)
  set s4 := (check_auth_password false s3 ip u p t4).state with hs4
  have hs4e : s4 = { s3 with blocked := fun j => if j = ip then some ⟨4, 0⟩ else s3.blocked j } := by
    rw [hs4, e4]
  have hg4 : s4.globalBlocked ip = false := by rw [hs4e]; exact hg3
  have he4 : s4.blocked ip = some ⟨4, 0⟩ := by rw [hs4e]; simp
  have e5 := check_auth_fail_threshold s4 ip u p t5 4 0 hg4 he4 hb (by decide) (by decide)
  set s5 := (check_auth_password false s4 ip u p t5).state with hs5
  have hs5e : s5 = { s4 with
      blocked := fun j => if j = ip then some ⟨5, t5 + BLOCK_DURATION⟩ else s4.blocked j } := by
    rw [hs5, e5]
  have hg5 : s5.globalBlocked ip = false := by rw [hs5e]; exact hg4
  have he5 : s5.blocked ip = some ⟨5, t5 + BLOCK_DURATION⟩ := by rw [hs5e]; simp
  refine ⟨by rw [e1], by rw [e1], ?_, by rw [e5], ?_, ?_⟩
  · intro t
    rw [(is_blocked_small s4 ip t 4 0 hg4 he4 (by decide) : is_blocked s4 ip t = (false, s4))]
  · intro t ht
    exact is_blocked_active s5 ip t 5 (t5 + BLOCK_DURATION) hg5 he5 (by decide) ht
  · intro t ht
    rw [is_blocked_expired s5 ip t 5 (t5 + BLOCK_DURATION) hg5 he5 (by decide) ht]

/-! ## Claim theorems -/

/-- Claim C4: path resolution never pops above the root.
resolve_path("/", "..") is "/", resolve_path("/var/log", "../www") is
"/var/www", and in general a ".." segment arriving when no collected
segment remains leaves the normalization fold unchanged rather than
raising an error. -/
theorem c4_resolve_never_pops_above_root :
    resolve_path "/" ".." = "/" ∧
    resolve_path "/var/log" "../www" = "/var/www" ∧
    ∀ rest : List String,
      List.foldl normStep [] (".." :: rest) = List.foldl normStep [] rest := by
  refine ⟨by decide, by decide, fun rest => ?_⟩
  have h : normStep [] ".." = [] := by decide
  simp [List.foldl_cons, h]

/-- Claim C1: with a decision-oracle endpoint configured, a timeout or
any other exception on the oracle round trip is handled exactly like a
200 ALLOW response whose decoy has should_deploy false: the command is
still executed by the interpreter, no decoy is deployed into the
filesystem, and the session is not terminated by policy. -/
theorem c1_oracle_failure_fails_open (s : SessionState) (ip cmd : String) (now : Nat) :
    (processCommand (some .timeoutErr) s ip cmd now
      = processCommand (some (.response 200 ⟨some "ALLOW", some ⟨some false, none, none⟩⟩)) s ip cmd now)
    ∧ (processCommand (some .exceptionErr) s ip cmd now
      = processCommand (some (.response 200 ⟨some "ALLOW", some ⟨some false, none, none⟩⟩)) s ip cmd now)
    ∧ (processCommand (some .timeoutErr) s ip cmd now).executed = true
    ∧ (processCommand (some .timeoutErr) s ip cmd now).deployedDecoy = none
    ∧ (processCommand (some .timeoutErr) s ip cmd now).policyTerminated = false
    ∧ (processCommand (some .exceptionErr) s ip cmd now).executed = true
    ∧ (processCommand (some .exceptionErr) s ip cmd now).deployedDecoy = none
    ∧ (processCommand (some .exceptionErr) s ip cmd now).policyTerminated = false := by
  refine ⟨rfl, rfl, ?_, ?_, ?_, ?_, ?_, ?_⟩ <;>
    first
      | exact (executePhase_spec _ _ _ _ _ _ _).1
      | exact (executePhase_spec _ _ _ _ _ _ _).2.1
      | exact (executePhase_spec _ _ _ _ _ _ _).2.2.1

/-- Claim C3: a 200 response with a BLOCK action makes the session
gateway send the termination notice, record the ip in the local block
map, insert the ip into the in-process global block set immediately,
and end the session without running the command through the
interpreter (the simulator state is untouched). -/
theorem c3_block_verdict_terminates (s : SessionState) (ip cmd : String) (now : Nat)
    (dd : Option DynamicDecoy) :
    (processCommand (some (.response 200 ⟨some "BLOCK", dd⟩)) s ip cmd now).sentMessages
      = ["\r\nConnection terminated by security policy.\r\n"]
    ∧ ((processCommand (some (.response 200 ⟨some "BLOCK", dd⟩)) s ip cmd now).state.honey.blocked ip).isSome
    ∧ (processCommand (some (.response 200 ⟨some "BLOCK", dd⟩)) s ip cmd now).state.honey.globalBlocked ip = true
    ∧ (processCommand (some (.response 200 ⟨some "BLOCK", dd⟩)) s ip cmd now).policyTerminated = true
    ∧ (processCommand (some (.response 200 ⟨some "BLOCK", dd⟩)) s ip cmd now).executed = false
    ∧ (processCommand (some (.response 200 ⟨some "BLOCK", dd⟩)) s ip cmd now).state.sim = s.sim := by
  refine ⟨rfl, ?_, ?_, rfl, rfl, rfl⟩
  · exact block_ip_mem s.honey ip now
  · show (if ip = ip then true else _) = true
    simp

/-- Claim C6: bait credentials (admin/admin and root/1234) authenticate
successfully for any non-blocked ip, whatever the value of the
ALLOW_ALL_CREDS flag. -/
theorem c6_bait_credentials_always_succeed (allowAll : Bool) (s : HoneypotState)
    (ip : String) (now : Nat) (h : (is_blocked s ip now).1 = false) :
    (check_auth_password allowAll s ip "admin" "admin" now).success = true
    ∧ (check_auth_password allowAll s ip "root" "1234" now).success = true := by
  constructor <;>
    · unfold check_auth_password
      simp [h, isBaitCred]

/-- Witness for C6 at the empty process-start state. -/
theorem c6_bait_credentials_always_succeed_witness :
    (is_blocked initHoneypotState "1.2.3.4" 0).1 = false
    ∧ ((check_auth_password false initHoneypotState "1.2.3.4" "admin" "admin" 0).success = true
       ∧ (check_auth_password false initHoneypotState "1.2.3.4" "root" "1234" 0).success = true) :=
  ⟨rfl, c6_bait_credentials_always_succeed false initHoneypotState "1.2.3.4" 0 rfl⟩

/-- Claim C7: a credential submission from an ip that is blocked at that
moment fails authentication and changes nothing: the blocklist state is
exactly as before and no log event (in particular no LOGIN_ATTEMPT) is
enqueued. -/
theorem c7_blocked_submission_is_pure_failure (allowAll : Bool) (s : HoneypotState)
    (ip u p : String) (now : Nat) (h : (is_blocked s ip now).1 = true) :
    (check_auth_password allowAll s ip u p now).success = false
    ∧ (check_auth_password allowAll s ip u p now).state = s
    ∧ (check_auth_password allowAll s ip u p now).events = [] := by
  have hframe := is_blocked_true_frame s ip now h
  unfold check_auth_password
  simp [h, hframe]

/-- Witness for C7 at a state whose global set holds the ip. -/
theorem c7_blocked_submission_is_pure_failure_witness :
    (is_blocked globalOnlyState "9.9.9.9" 5).1 = true
    ∧ ((check_auth_password false globalOnlyState "9.9.9.9" "root" "1234" 5).success = false
       ∧ (check_auth_password false globalOnlyState "9.9.9.9" "root" "1234" 5).state = globalOnlyState
       ∧ (check_auth_password false globalOnlyState "9.9.9.9" "root" "1234" 5).events = []) :=
  ⟨rfl, c7_blocked_submission_is_pure_failure false globalOnlyState "9.9.9.9" "root" "1234" 5 rfl⟩

theorem initFs_nodup : FsND initFs := by
  intro p n h
  unfold initFs at h
  split_ifs at h
  all_goals
    first
      | exact Option.noConfusion h
      | (injection h with h; subst h; decide)

theorem list_dir_eq_none (f : FakeFilesystem) (path : String) (h : is_dir f path = false) :
    list_dir f path = none := by
  unfold is_dir at h
  unfold list_dir
  cases hf : f.fs path with
  | none => rfl
  | some node =>
    rw [hf] at h
    simp only [decide_eq_false_iff_not] at h
    simp [h]

theorem list_dir_of_dir (f : FakeFilesystem) (path : String) (node : FsNode)
    (hnode : f.fs path = some node) (hd : is_dir f path = true) :
    list_dir f path = some node.contents := by
  unfold is_dir at hd
  rw [hnode] at hd
  unfold list_dir
  rw [hnode]
  simp only [decide_eq_true_eq] at hd
  simp [hd]

/-- Claim C5: deploy_decoy is idempotent on directory listings.  From
any filesystem satisfying the no-duplicate-listings invariant whose
root exists, deploying the same path twice leaves the fs dict of the
first deployment unchanged, the filename appears exactly once in the
final directory's listing, and every ancestor directory synthesized by
the call appears exactly once in its own parent's listing. -/
theorem c5_deploy_decoy_idempotent (f : FakeFilesystem) (path content : String)
    (hnd : FsND f.fs) (hroot : (f.fs "/").isSome) :
    ((deploy_decoy (deploy_decoy f path content) path content).fs
      = (deploy_decoy f path content).fs)
    ∧ (∃ node, (deploy_decoy (deploy_decoy f path content) path content).fs
          (chainEnd "/" ((splitOnSlash (stripSlashes path)).dropLast)) = some node
        ∧ node.contents.count ((splitOnSlash (stripSlashes path)).getLastD "") = 1)
    ∧ (∀ pp prt nd,
        (pp, prt, nd) ∈ chainOf "/" ((splitOnSlash (stripSlashes path)).dropLast) →
        f.fs nd = none →
        ∃ node, (deploy_decoy (deploy_decoy f path content) path content).fs pp = some node
          ∧ node.contents.count prt = 1) := by
  have hidem := deploy_decoy_idem_fs f path content hroot
  have hnd1 := deploy_decoy_nd f path content hnd
  refine ⟨hidem, ?_, ?_⟩
  · obtain ⟨node, h1, h2⟩ := deploy_decoy_parent_mem f path content hroot
    rw [hidem]
    exact ⟨node, h1, List.count_eq_one_of_mem (hnd1 _ node h1) h2⟩
  · intro pp prt nd hm hnone
    obtain ⟨node, h1, h2⟩ := deploy_decoy_ancestor_mem f path content hroot pp prt nd hm hnone
    rw [hidem]
    exact ⟨node, h1, List.count_eq_one_of_mem (hnd1 _ node h1) h2⟩

/-- Witness for C5 at the initial filesystem with the decoy path
/var/www/config.php. -/
theorem c5_deploy_decoy_idempotent_witness :
    FsND initFakeFilesystem.fs
    ∧ (initFakeFilesystem.fs "/").isSome
    ∧ ((deploy_decoy (deploy_decoy initFakeFilesystem "/var/www/config.php" "DB_PASS=x")
          "/var/www/config.php" "DB_PASS=x").fs
        = (deploy_decoy initFakeFilesystem "/var/www/config.php" "DB_PASS=x").fs) :=
  ⟨initFs_nodup, by decide,
   (c5_deploy_decoy_idempotent initFakeFilesystem "/var/www/config.php" "DB_PASS=x"
     initFs_nodup (by decide)).1⟩

/-- Claim C10: when the first non-flag argument of ls resolves to an
existing file that is not a directory, ls echoes that argument exactly
as typed; a directory target yields its joined listing; and the
cannot-access error string is produced only when the target is neither
a directory nor a file. -/
theorem c10_ls_file_returns_argument (sim : CommandSimulator) (args : List String)
    (p : String) (rest : List String)
    (hp : args.filter (fun a => ¬ startsWithChar '-' a) = p :: rest) :
    (is_file sim.fs (resolve_path sim.current_path p) = true
      → is_dir sim.fs (resolve_path sim.current_path p) = false
      → cmd_ls sim args = p)
    ∧ (∀ node, sim.fs.fs (resolve_path sim.current_path p) = some node
      → is_dir sim.fs (resolve_path sim.current_path p) = true
      → cmd_ls sim args = String.intercalate "  " node.contents)
    ∧ (is_dir sim.fs (resolve_path sim.current_path p) = false
      → is_file sim.fs (resolve_path sim.current_path p) = false
      → cmd_ls sim args
        = "ls: cannot access \x27" ++ p ++ "\x27: No such file or directory") := by
  refine ⟨?_, ?_, ?_⟩
  · intro hf hd
    unfold cmd_ls
    rw [hp]
    try dsimp only
    rw [list_dir_eq_none sim.fs _ hd, hf]
    rfl
  · intro node hnode hd
    unfold cmd_ls
    rw [hp]
    try dsimp only
    rw [list_dir_of_dir sim.fs _ node hnode hd]
  · intro hd hf
    unfold cmd_ls
    rw [hp]
    try dsimp only
    rw [list_dir_eq_none sim.fs _ hd, hf]
    rfl

/-- Witness for C10: ls -l /etc/passwd on the initial simulator prints
the argument /etc/passwd back. -/
theorem c10_ls_file_returns_argument_witness :
    ["-l", "/etc/passwd"].filter (fun a => ¬ startsWithChar '-' a) = ["/etc/passwd"]
    ∧ is_file initCommandSimulator.fs
        (resolve_path initCommandSimulator.current_path "/etc/passwd") = true
    ∧ is_dir initCommandSimulator.fs
        (resolve_path initCommandSimulator.current_path "/etc/passwd") = false
    ∧ cmd_ls initCommandSimulator ["-l", "/etc/passwd"] = "/etc/passwd" :=
  ⟨by decide, by decide, by decide,
   (c10_ls_file_returns_argument initCommandSimulator ["-l", "/etc/passwd"]
     "/etc/passwd" [] (by decide)).1 (by decide) (by decide)⟩

/-- Claim C2: starting from an ip with no local entry and no global
block, five failed non-bait submissions (no intervening success) make
is_blocked true; the first four emit only LOGIN_ATTEMPT and leave the
ip unblocked, the fifth additionally emits the BLOCK event, and the
block holds exactly until BLOCK_DURATION (60s) after the fifth
attempt's instant. -/
theorem c2_threshold_failed_attempts_block (s0 : HoneypotState) (ip u p : String)
    (t1 t2 t3 t4 t5 : Nat)
    (hg : s0.globalBlocked ip = false) (h0 : s0.blocked ip = none)
    (hb : isBaitCred u p = false) :
    (check_auth_password false s0 ip u p t1).success = false
    ∧ (check_auth_password false s0 ip u p t1).events
        = [⟨t1, "LOGIN_ATTEMPT", ip, some u, some p, none⟩]
    ∧ (∀ t, (is_blocked (check_auth_password false
        (check_auth_password false
          (check_auth_password false
            (check_auth_password false s0 ip u p t1).state ip u p t2).state
          ip u p t3).state ip u p t4).state ip t).1 = false)
    ∧ (check_auth_password false (check_auth_password false
        (check_auth_password false
          (check_auth_password false
            (check_auth_password false s0 ip u p t1).state ip u p t2).state
          ip u p t3).state ip u p t4).state ip u p t5).events
        = [⟨t5, "LOGIN_ATTEMPT", ip, some u, some p, none⟩,
           ⟨t5, "BLOCK", ip, none, none,
            some ("Blocked for " ++ toString BLOCK_DURATION ++ "s after "
                  ++ toString MAX_ATTEMPTS ++ " attempts")⟩]
    ∧ (∀ t, t < t5 + BLOCK_DURATION →
        (is_blocked (check_auth_password false (check_auth_password false
          (check_auth_password false
            (check_auth_password false
              (check_auth_password false s0 ip u p t1).state ip u p t2).state
            ip u p t3).state ip u p t4).state ip u p t5).state ip t).1 = true)
    ∧ (∀ t, t5 + BLOCK_DURATION ≤ t →
        (is_blocked (check_auth_password false (check_auth_password false
          (check_auth_password false
            (check_auth_password false
              (check_auth_password false s0 ip u p t1).state ip u p t2).state
            ip u p t3).state ip u p t4).state ip u p t5).state ip t).1 = false) :=
  five_fresh_failures_spec s0 ip u p t1 t2 t3 t4 t5 hg h0 hb

/-- Witness for C2: the scenario ip 9.9.9.9 with five wrong submissions
at instants 0..4 from the fresh process state. -/
theorem c2_threshold_failed_attempts_block_witness :
    initHoneypotState.globalBlocked "9.9.9.9" = false
    ∧ initHoneypotState.blocked "9.9.9.9" = none
    ∧ isBaitCred "user1" "wrong" = false
    ∧ (∀ t, t < 4 + BLOCK_DURATION →
        (is_blocked (check_auth_password false (check_auth_password false
          (check_auth_password false
            (check_auth_password false
              (check_auth_password false initHoneypotState "9.9.9.9" "user1" "wrong" 0).state
              "9.9.9.9" "user1" "wrong" 1).state
            "9.9.9.9" "user1" "wrong" 2).state "9.9.9.9" "user1" "wrong" 3).state
          "9.9.9.9" "user1" "wrong" 4).state "9.9.9.9" t).1 = true) :=
  ⟨rfl, rfl, by decide,
   (c2_threshold_failed_attempts_block initHoneypotState "9.9.9.9" "user1" "wrong"
     0 1 2 3 4 rfl rfl (by decide)).2.2.2.2.1⟩

/-- Counterexample for C9 as stated: ip 9.9.9.9 has an expired local
block (five attempts, 'until' 10, now 100) but also sits in the global
block set, so is_blocked returns true and the local entry is not
deleted. -/
theorem c9_counterexample :
    expiredButGlobalState.blocked "9.9.9.9" = some ⟨5, 10⟩
    ∧ MAX_ATTEMPTS ≤ 5
    ∧ (10 : Nat) ≤ 100
    ∧ (is_blocked expiredButGlobalState "9.9.9.9" 100).1 = true
    ∧ (is_blocked expiredButGlobalState "9.9.9.9" 100).2.blocked "9.9.9.9" = some ⟨5, 10⟩ :=
  ⟨rfl, by decide, by decide, by decide, by decide⟩

/-- Claim C9 amended: for every ip not in the global block set whose
local block has expired, is_blocked returns false and deletes the local
entry, so the attempt counter is reset and a later run of failed
attempts gets the full threshold of five again: four further failures
leave the ip unblocked and the fifth blocks it. -/
theorem c9_expired_block_lazily_cleared (s : HoneypotState) (ip u p : String)
    (now k bu t1 t2 t3 t4 t5 : Nat)
    (hg : s.globalBlocked ip = false) (he : s.blocked ip = some ⟨k, bu⟩)
    (hk : MAX_ATTEMPTS ≤ k) (ht : bu ≤ now) (hb : isBaitCred u p = false) :
    (is_blocked s ip now).1 = false
    ∧ (is_blocked s ip now).2.blocked ip = none
    ∧ (∀ t, (is_blocked (check_auth_password false
        (check_auth_password false
          (check_auth_password false
            (check_auth_password false (is_blocked s ip now).2 ip u p t1).state
            ip u p t2).state ip u p t3).state ip u p t4).state ip t).1 = false)
    ∧ (∀ t, t < t5 + BLOCK_DURATION →
        (is_blocked (check_auth_password false (check_auth_password false
          (check_auth_password false
            (check_auth_password false
              (check_auth_password false (is_blocked s ip now).2 ip u p t1).state
              ip u p t2).state ip u p t3).state ip u p t4).state ip u p t5).state
          ip t).1 = true) := by
  have hex := is_blocked_expired s ip now k bu hg he hk ht
  have hfst : (is_blocked s ip now).1 = false := by rw [hex]
  have hsnd : (is_blocked s ip now).2
      = { s with blocked := fun j => if j = ip then none else s.blocked j } := by rw [hex]
  have hg2 : ((is_blocked s ip now).2).globalBlocked ip = false := by rw [hsnd]; exact hg
  have h02 : ((is_blocked s ip now).2).blocked ip = none := by rw [hsnd]; simp
  have spec := five_fresh_failures_spec ((is_blocked s ip now).2) ip u p t1 t2 t3 t4 t5
    hg2 h02 hb
  exact ⟨hfst, h02, spec.2.2.1, spec.2.2.2.2.1⟩

/-- Witness for C9 amended: 9.9.9.9 with an expired local block and no
global entry, then five wrong submissions at instants 100..104. -/
theorem c9_expired_block_lazily_cleared_witness :
    expiredLocalState.globalBlocked "9.9.9.9" = false
    ∧ expiredLocalState.blocked "9.9.9.9" = some ⟨5, 10⟩
    ∧ MAX_ATTEMPTS ≤ 5
    ∧ (10 : Nat) ≤ 100
    ∧ isBaitCred "user1" "wrong" = false
    ∧ (is_blocked expiredLocalState "9.9.9.9" 100).1 = false
    ∧ (is_blocked expiredLocalState "9.9.9.9" 100).2.blocked "9.9.9.9" = none :=
  ⟨rfl, rfl, by decide, by decide, by decide,
   (c9_expired_block_lazily_cleared expiredLocalState "9.9.9.9" "user1" "wrong"
     100 5 10 100 101 102 103 104 rfl rfl (by decide) (by decide) (by decide)).1,
   (c9_expired_block_lazily_cleared expiredLocalState "9.9.9.9" "user1" "wrong"
     100 5 10 100 101 102 103 104 rfl rfl (by decide) (by decide) (by decide)).2.1⟩

/-- Counterexample for C8: with 100 prior session commands, the request
submitted to the oracle carries all 101 commands of the session, not a
bounded tail. -/
theorem c8_history_counterexample :
    (processCommand (some .timeoutErr)
        ⟨initCommandSimulator, initHoneypotState, List.replicate 100 ⟨"whoami"⟩⟩
        "1.2.3.4" "ls" 0).oracleRequest
      = some (mkEvalPayload "1.2.3.4" "ls"
          (List.replicate 100 ⟨"whoami"⟩ ++ [⟨"ls"⟩]) initCommandSimulator)
    ∧ (mkEvalPayload "1.2.3.4" "ls"
        (List.replicate 100 (⟨"whoami"⟩ : HistoryEntry) ++ [⟨"ls"⟩])
        initCommandSimulator).history.length = 101 := by
  constructor
  · have h := (executePhase_spec
      ⟨initCommandSimulator, initHoneypotState, List.replicate 100 ⟨"whoami"⟩⟩
      "1.2.3.4" "ls" 0 (List.replicate 100 ⟨"whoami"⟩ ++ [⟨"ls"⟩])
      (some (mkEvalPayload "1.2.3.4" "ls"
        (List.replicate 100 ⟨"whoami"⟩ ++ [⟨"ls"⟩]) initCommandSimulator)) none).2.2.2
    exact h
  · simp [mkEvalPayload]

/-- Claim C8 amended: the history field of every DecisionRequest is the
entire session command history (every prior command plus the current
one), with no bound applied on the honeypot side. -/
theorem c8_request_history_is_entire_history (o : OracleOutcome) (s : SessionState)
    (ip cmd : String) (now : Nat) :
    (processCommand (some o) s ip cmd now).oracleRequest
      = some (mkEvalPayload ip cmd (s.history ++ [⟨cmd⟩]) s.sim)
    ∧ (mkEvalPayload ip cmd (s.history ++ [⟨cmd⟩]) s.sim).history = s.history ++ [⟨cmd⟩] := by
  refine ⟨?_, rfl⟩
  cases o with
  | timeoutErr => exact (executePhase_spec _ _ _ _ _ _ _).2.2.2
  | exceptionErr => exact (executePhase_spec _ _ _ _ _ _ _).2.2.2
  | response status decision =>
    unfold processCommand
    try dsimp only
    by_cases h200 : status = 200
    · simp only [h200, if_pos rfl]
      by_cases hact : decision.action.getD "ALLOW" = "BLOCK"
      · simp [hact]
      · simp only [hact, if_neg hact]
        exact (executePhase_spec _ _ _ _ _ _ _).2.2.2
    · simp only [if_neg h200]
      exact (executePhase_spec _ _ _ _ _ _ _).2.2.2

